import Mathlib

/-!
# Verification of the climate_sense risk-derivation pipeline

Shallow embedding of the deterministic core of `run_agent_loop.py` (and the
variant aggregator in `agents.py`).  Modelling conventions:

* Python floats are modelled as exact rationals (`ℚ`), ints as `ℤ`/`ℕ`.
* A fetch result that can be `None` is an `Option`.
* Every enrichment (LLM) call is an oracle `Option String`: `some txt` models
  `generate_content` returning `txt` (the source then applies `.strip()` where
  it does), `none` models the call raising, which the source converts to a
  fixed sentinel in its local `except` block.
* Values that Python holds as "int or the string sentinel" are a small sum
  type; an ordered comparison between a string and an int raises `TypeError`,
  which we surface as `Except PyErr`.
* `datetime.fromtimestamp(dt).strftime('%Y-%m-%d')` (grouping key of the
  forecast aggregator) is abstracted as a function `dateKey : ℕ → String`,
  universally quantified in the theorems.
-/

/-- A Python value that is either numeric or a non-numeric object (here the
string sentinel `"N/A"`); used where the source checks
`isinstance(x, (int, float))`. -/
inductive HVal where
  | num (q : ℚ)
  | str (s : String)
deriving DecidableEq

/-- `true` iff the value passes `isinstance(x, (int, float))`. -/
def HVal.isNum : HVal → Bool
  | HVal.num _ => true
  | HVal.str _ => false

/-- The air-quality index as it flows through the pipeline: an integer, or the
`"N/A"` string stored when the air-quality fetch failed. -/
inductive AqiVal where
  | int (n : ℤ)
  | na
deriving DecidableEq

/-- A Python runtime exception escaping a stage (only `TypeError` is reachable
here, raised by an ordered comparison between `str` and `int`). -/
inductive PyErr where
  | typeError
deriving DecidableEq

/-- `charsPrefix n h` is true iff char list `n` is a prefix of `h`. -/
def charsPrefix : List Char → List Char → Bool
  | [], _ => true
  | _ :: _, [] => false
  | a :: as, b :: bs => a = b && charsPrefix as bs

/-- `charsInfix n h` is true iff `n` occurs contiguously inside `h`. -/
def charsInfix (needle : List Char) : List Char → Bool
  | [] => needle.isEmpty
  | c :: rest => charsPrefix needle (c :: rest) || charsInfix needle rest

/-- Python's substring test `needle in haystack`. -/
def strContains (haystack needle : String) : Bool :=
  charsInfix needle.data haystack.data

/-- Python's `str.strip()` (no argument): remove leading and trailing
whitespace. -/
def pyStrip (s : String) : String :=
  ⟨((s.data.dropWhile Char.isWhitespace).reverse.dropWhile
      Char.isWhitespace).reverse⟩

/-- Python's `str.lower()` (the source only lowercases ASCII location
strings). -/
def pyLower (s : String) : String :=
  ⟨s.data.map Char.toLower⟩

/-- Python's `city.split(',')[0]`: the part before the first comma. -/
def cityMain (city : String) : String :=
  ⟨city.data.takeWhile (fun c => c != ',')⟩

/-- The fields of the current-conditions JSON the pipeline reads
(`wind.speed`, `weather[0].description`, `weather[0].icon`, `main.temp`,
`main.humidity`).  A `none` field models a missing key, for which the source
substitutes the documented `.get` default at each use site. -/
structure WeatherData where
  wind_speed : Option ℚ
  description : Option String
  icon : Option String
  temp : Option ℚ
  humidity : Option ℚ
deriving DecidableEq

/-- The `details` sub-dict built by `agent_2_risk_classifier`
(`main.humidity` defaults to the string `"N/A"` when absent). -/
structure RiskDetails where
  temp_c : ℚ
  wind_speed_ms : ℚ
  description : String
  humidity : HVal
deriving DecidableEq

/-- Output of `agent_2_risk_classifier`. -/
structure RiskReport where
  primary_level : String
  reasoning : String
  details : RiskDetails
deriving DecidableEq

/-- `agent_2_risk_classifier` of `run_agent_loop.py` lines 227-262 (the copy
in `agents.py` lines 93-128 has the identical decision list): a first-match
decision list over condition text and wind speed.  Missing input fields
default to `0` / `"unknown"`, so the function is total. -/
def agent_2_risk_classifier (weather_data : WeatherData) : RiskReport :=
  let wind_speed := weather_data.wind_speed.getD 0
  let description := weather_data.description.getD "unknown"
  let temp := weather_data.temp.getD 0
  let level_reason : String × String :=
    if strContains description "thunderstorm" || strContains description "squalls" then
      ("HIGH", "Active thunderstorm or squalls reported.")
    else if strContains description "rain" && decide (wind_speed > 15) then
      ("HIGH", s!"Heavy rain combined with high wind speed ({toString wind_speed} m/s).")
    else if strContains description "rain" then
      ("MODERATE", "Rain reported. Monitor conditions.")
    else if wind_speed > 20 then
      ("HIGH", s!"Extreme wind speed ({toString wind_speed} m/s) detected.")
    else if wind_speed > 15 then
      ("MODERATE", s!"High wind speed ({toString wind_speed} m/s) detected.")
    else
      ("LOW", "Conditions are calm.")
  { primary_level := level_reason.1, reasoning := level_reason.2,
    details :=
      { temp_c := temp, wind_speed_ms := wind_speed, description := description,
        humidity := match weather_data.humidity with
          | some hm => HVal.num hm
          | none => HVal.str "N/A" } }

/-- `(temp_c * 9 / 5) + 32` — the Fahrenheit conversion inside
`agent_2_7_heat_classifier`. -/
def T_fahrenheit (temp_c : ℚ) : ℚ := temp_c * 9 / 5 + 32

/-- The NOAA heat-index regression polynomial used on the `T_f >= 80` branch
of `agent_2_7_heat_classifier` (coefficients exactly as in the source). -/
def noaaPoly (T R : ℚ) : ℚ :=
  -42.379 + 2.04901523 * T + 10.14333127 * R - 0.22475541 * T * R
    - 0.00683783 * T ^ 2 - 0.05481717 * R ^ 2 + 0.00122874 * T ^ 2 * R
    + 0.00085282 * T * R ^ 2 - 0.00000199 * T ^ 2 * R ^ 2

/-- Python's `round(x, 1)` modelled as rounding `10 * x` to the nearest
integer (the inputs proved about are never exact half-way ties, where Python's
round-half-even could differ from `round`). -/
def round1 (q : ℚ) : ℚ := (round (10 * q) : ℤ) / 10

/-- The tier thresholds applied to the Celsius heat index (tier name and its
fixed warning string). -/
def heatTier (HI_c : ℚ) : String × String :=
  if HI_c ≥ 40 then ("EXTREME", "Danger: Heat stroke highly likely.")
  else if HI_c ≥ 32 then ("HIGH", "Extreme Caution: Heat cramps or heat exhaustion possible.")
  else if HI_c ≥ 27 then ("MODERATE", "Caution: Fatigue possible with prolonged exposure.")
  else ("LOW", "No heat risk.")

/-- Output of `agent_2_7_heat_classifier`; `heat_index_c = none` models the
`"N/A"` value returned for invalid inputs. -/
structure HeatReport where
  heat_index_c : Option ℚ
  heat_risk : String
  warning : String
deriving DecidableEq

/-- `agent_2_7_heat_classifier` of `run_agent_loop.py` lines 266-317.  A total
function (the source raises nowhere: invalid inputs take the early return, and
the `except` fallback around the polynomial guards float overflow, which
cannot occur over `ℚ`). -/
def agent_2_7_heat_classifier (temp_c humidity : HVal) : HeatReport :=
  match temp_c, humidity with
  | HVal.num t, HVal.num r =>
      let T_f := T_fahrenheit t
      let HI := if T_f < 80 then T_f else noaaPoly T_f r
      let HI_c := (HI - 32) * 5 / 9
      { heat_index_c := some (round1 HI_c),
        heat_risk := (heatTier HI_c).1,
        warning := (heatTier HI_c).2 }
  | _, _ =>
      { heat_index_c := none, heat_risk := "LOW",
        warning := "Heat calculation skipped due to missing temperature or humidity data." }

/-- `uv_index` and `tomorrow_aqi` from `agent_1_7_advanced_fetcher` (always a
dict; `tomorrow_aqi` is `"N/A"` when its fetch fails). -/
structure AdvancedData where
  uv_index : ℤ
  tomorrow_aqi : AqiVal
deriving DecidableEq

/-- The pollutant components read by `agent_2_5_air_quality_analyzer`. -/
structure AqiComponents where
  pm2_5 : Option ℚ
  o3 : Option ℚ
deriving DecidableEq

/-- The `list[0]` record returned by `agent_1_6_air_quality_fetcher`. -/
structure AqiData where
  aqi : Option ℤ
  components : AqiComponents
deriving DecidableEq

/-- Output of `agent_2_5_air_quality_analyzer`. -/
structure AirQualityReport where
  aqi : AqiVal
  analysis : String
  tomorrow_aqi : AqiVal
deriving DecidableEq

/-- The fixed index-to-name map `{1: Good, 2: Fair, 3: Moderate, 4: Poor,
5: Very Poor}` with default `"Unknown"`. -/
def aqiName (n : ℤ) : String :=
  if n = 1 then "Good" else if n = 2 then "Fair" else if n = 3 then "Moderate"
  else if n = 4 then "Poor" else if n = 5 then "Very Poor" else "Unknown"

/-- `agent_2_5_air_quality_analyzer` of `run_agent_loop.py` lines 320-350:
on a missing fetch result it returns the `"N/A"`/"No data" record; otherwise
it keeps the numeric index and takes the analysis text from the enrichment
oracle, with the fixed error string on oracle failure. -/
def agent_2_5_air_quality_analyzer (aqi_data : Option AqiData)
    (advanced_data : AdvancedData) (llm : Option String) : AirQualityReport :=
  match aqi_data with
  | none => { aqi := AqiVal.na, analysis := "No data", tomorrow_aqi := AqiVal.na }
  | some d =>
      let aqi_index := d.aqi.getD 0
      { aqi := AqiVal.int aqi_index,
        analysis := (llm.map pyStrip).getD "Error analyzing air quality.",
        tomorrow_aqi := advanced_data.tomorrow_aqi }

/-- `risk_map.get(level, 1)` with
`risk_map = {"EXTREME": 5, "HIGH": 4, "MODERATE": 3, "LOW": 2, "NONE": 1}`. -/
def riskMapGet (level : String) : ℤ :=
  if level = "EXTREME" then 5 else if level = "HIGH" then 4
  else if level = "MODERATE" then 3 else if level = "LOW" then 2
  else if level = "NONE" then 1 else 1

/-- `final_risk_map.get(priority, "LOW")` with
`final_risk_map = {5: "CRITICAL", 4: "HIGH", 3: "MODERATE", 2: "LOW", 1: "LOW"}`. -/
def finalRiskMapGet (n : ℤ) : String :=
  if n = 5 then "CRITICAL" else if n = 4 then "HIGH" else if n = 3 then "MODERATE"
  else if n = 2 then "LOW" else if n = 1 then "LOW" else "LOW"

/-- Python `max(a, b, c)` where the third value may be the `"N/A"` string:
comparing `str` with `int` raises `TypeError`. -/
def pyMax3 (a b : ℤ) (c : AqiVal) : Except PyErr ℤ :=
  match c with
  | AqiVal.int n => Except.ok (max (max a b) n)
  | AqiVal.na => Except.error PyErr.typeError

/-- `agent_11_alert_prioritizer` of `run_agent_loop.py` lines 601-635.  The
numeric floor (`max` of the three scores) is computed before the `try` block,
so an `"N/A"` index raises out of the agent; on enrichment success the raw
text is returned as-is (`.strip()`), the numeric floor only names the fallback
used when the enrichment call fails. -/
def agent_11_alert_prioritizer (primary_level heat_risk : String)
    (air : AirQualityReport) (llm : Option String) : Except PyErr String := do
  let primary_score := riskMapGet primary_level
  let heat_score := riskMapGet heat_risk
  let priority_level ← pyMax3 primary_score heat_score air.aqi
  let final_level_default := finalRiskMapGet priority_level
  match llm with
  | some txt => return pyStrip txt
  | none =>
      return s!"{final_level_default}: Error determining final priority. Defaulting to highest local risk."

/-- `final_risk_result.split(':')[0].strip()` (main loop line 1041): the part
before the first colon, stripped. -/
def parseFinalLevel (s : String) : String :=
  pyStrip ⟨s.data.takeWhile (fun c => c != ':')⟩

/-- `final_risk_result.split(':', 1)[-1].strip()` (main loop line 1045): the
part after the first colon when there is one, the whole string otherwise,
stripped. -/
def parseFinalReasoning (s : String) : String :=
  match s.data.dropWhile (fun c => c != ':') with
  | [] => pyStrip s
  | _ :: rest => pyStrip ⟨rest⟩

/-- `aqi <= 2` in Python, where the lhs may be the `"N/A"` string: comparing
`str` with `int` raises `TypeError`. -/
def pyLeInt (a : AqiVal) (b : ℤ) : Except PyErr Bool :=
  match a with
  | AqiVal.int n => Except.ok (decide (n ≤ b))
  | AqiVal.na => Except.error PyErr.typeError

/-- Result of the recommendation stage, together with whether the enrichment
service was invoked (`used_service` records whether `generate_content` runs on
that branch of the source). -/
structure RecOut where
  used_service : Bool
  text : String
deriving DecidableEq

/-- The enrichment path of `agent_3_action_recommender`: the oracle's text on
success, the fixed error sentinel when the call raises. -/
def recommenderCall (llm : Option String) : RecOut :=
  { used_service := true, text := llm.getD "Error generating recommendations." }

/-- The fixed calm-conditions string returned by the short-circuit. -/
def calmString : String :=
  "Conditions are stable, air quality is good, and heat risk is minimal. No special actions required."

/-- `agent_3_action_recommender` of `run_agent_loop.py` lines 384-432.  The
guard `primary == "LOW" and heat == "LOW" and aqi <= 2` short-circuits left to
right, so the (possibly `"N/A"`) index is only compared when both levels are
`"LOW"`.  The prompt body (which also embeds the max forecast temperature) is
opaque to the oracle and not modelled. -/
def agent_3_action_recommender (primary_level heat_risk : String)
    (air : AirQualityReport) (llm : Option String) : Except PyErr RecOut := do
  if primary_level = "LOW" then
    if heat_risk = "LOW" then
      let c ← pyLeInt air.aqi 2
      if c then
        return { used_service := false, text := calmString }
      else
        return recommenderCall llm
    else
      return recommenderCall llm
  else
    return recommenderCall llm

/-- `smart_sleep_and_watch` of `run_agent_loop.py` lines 71-94, with real time
abstracted away: `polls` is the sequence of values `get_target_location()`
returns at the successive wake-ups during the wait.  The function returns
`true` (aborting the wait) at the first polled value that differs
case-insensitively (`.lower()`, modelled by `pyLower`) from the
location at the start of the sleep, and `false` once the polls are exhausted
(the full duration elapsed). -/
def smart_sleep_and_watch (polls : List String)
    (location_at_start_of_sleep : String) : Bool :=
  match polls with
  | [] => false
  | p :: rest =>
      if pyLower p ≠ pyLower location_at_start_of_sleep then true
      else smart_sleep_and_watch rest location_at_start_of_sleep

/-- The severity table of the spec (§4.5 / glossary): EXTREME and CRITICAL 5,
HIGH 4, MODERATE 3, LOW 2, NONE (or anything else) 1.  Used only to state
claims, never inside the embedding. -/
def severityScore (level : String) : ℤ :=
  if level = "EXTREME" ∨ level = "CRITICAL" then 5 else if level = "HIGH" then 4
  else if level = "MODERATE" then 3 else if level = "LOW" then 2 else 1

/-- One 3-hourly record of the raw forecast feed, with the fields
`agent_1_5_forecast_processor` reads (`dt`, `main.temp_min`, `main.temp_max`,
`weather[0].icon`, `pop`; a missing `pop` already defaulted to `0`). -/
structure ForecastItem where
  dt : ℕ
  temp_min : ℚ
  temp_max : ℚ
  icon : String
  pop : ℚ
deriving DecidableEq

/-- The per-date accumulator dict of `agent_1_5_forecast_processor`
(`date_ts`, running `temp_min`/`temp_max`, the icon frequency dict in
insertion order, and the list of `pop` values). -/
structure DayAcc where
  date_ts : ℕ
  temp_min : ℚ
  temp_max : ℚ
  icons : List (String × ℕ)
  pops : List ℚ
deriving DecidableEq

/-- `icons[icon] = icons.get(icon, 0) + 1` on an insertion-ordered dict:
increment in place if present, else append at the end. -/
def bumpIcon : List (String × ℕ) → String → List (String × ℕ)
  | [], i => [(i, 1)]
  | (j, c) :: rest, i =>
      if j = i then (j, c + 1) :: rest else (j, c) :: bumpIcon rest i

/-- The accumulator created for the first sample of a date. -/
def newAcc (it : ForecastItem) : DayAcc :=
  { date_ts := it.dt, temp_min := it.temp_min, temp_max := it.temp_max,
    icons := [(it.icon, 1)], pops := [it.pop] }

/-- The in-place update for a later sample of an already-present date
(the two conditional overwrites, the icon bump, and the `pop` append). -/
def updAcc (v : DayAcc) (it : ForecastItem) : DayAcc :=
  { v with
    temp_min := if it.temp_min < v.temp_min then it.temp_min else v.temp_min,
    temp_max := if it.temp_max > v.temp_max then it.temp_max else v.temp_max,
    icons := bumpIcon v.icons it.icon,
    pops := v.pops ++ [it.pop] }

/-- One step of the grouping loop: `daily_forecasts` is an insertion-ordered
dict, modelled as an association list with unique keys. -/
def insertItem (dateKey : ℕ → String) :
    List (String × DayAcc) → ForecastItem → List (String × DayAcc)
  | [], it => [(dateKey it.dt, newAcc it)]
  | (k, v) :: rest, it =>
      if k = dateKey it.dt then (k, updAcc v it) :: rest
      else (k, v) :: insertItem dateKey rest it

/-- The grouping loop `for item in data.get('list', [])` of
`agent_1_5_forecast_processor`. -/
def buildDaily (dateKey : ℕ → String) (items : List ForecastItem) :
    List (String × DayAcc) :=
  items.foldl (insertItem dateKey) []

/-- The scan underlying Python's `max(..., key=...)`: starting from `b`, an
element replaces the current best only when strictly greater, so the first
element attaining the maximum wins. -/
def pickMax (b : String × ℕ) (l : List (String × ℕ)) : String × ℕ :=
  l.foldl (fun acc p => if p.2 > acc.2 then p else acc) b

/-- `max(values['icons'], key=values['icons'].get)`: Python's `max` keeps the
first element attaining the maximum, scanning the dict in insertion order.
The empty-dict case is unreachable (the dict is created non-empty). -/
def mostCommonIcon : List (String × ℕ) → String
  | [] => ""
  | p :: rest => (pickMax p rest).1

/-- Python's `min` over a (non-empty) list of numbers. -/
def pyListMin : List ℚ → ℚ
  | [] => 0
  | x :: xs => xs.foldl min x

/-- Python's `max` over a (non-empty) list of numbers, e.g.
`max(values['pops'])`. -/
def pyListMax : List ℚ → ℚ
  | [] => 0
  | x :: xs => xs.foldl max x

/-- One record of the processed `'daily'` list. -/
structure DailySummary where
  dt : ℕ
  temp_min : ℚ
  temp_max : ℚ
  icon : String
  pop : ℚ
deriving DecidableEq

/-- Building one daily summary from a finished accumulator. -/
def summarize (v : DayAcc) : DailySummary :=
  { dt := v.date_ts, temp_min := v.temp_min, temp_max := v.temp_max,
    icon := mostCommonIcon v.icons, pop := pyListMax v.pops }

/-- The processing part of `agent_1_5_forecast_processor` in
`run_agent_loop.py` lines 124-165: group, summarize, then
`processed_daily.sort(key=lambda x: x['dt'])` (a stable ascending sort,
modelled by `List.mergeSort`). -/
def agent_1_5_forecast_processor (dateKey : ℕ → String)
    (items : List ForecastItem) : List DailySummary :=
  (((buildDaily dateKey items).map (fun p => summarize p.2)).mergeSort
    (fun a b => a.dt ≤ b.dt))

/-- The processing part of the `agents.py` variant (lines 55-86): identical
grouping and summarising, but with NO post-sort — the output stays in
first-occurrence order of the dates. -/
def agents_forecast_processor (dateKey : ℕ → String)
    (items : List ForecastItem) : List DailySummary :=
  (buildDaily dateKey items).map (fun p => summarize p.2)

/-- First-occurrence deduplication: the keys of an insertion-ordered Python
dict built by repeated `d[k] = ...`, i.e. each distinct value once, in order
of first insertion. -/
def firstDedup : List String → List String
  | [] => []
  | a :: rest => a :: (firstDedup rest).filter (fun b => b ≠ a)

/-- The icon frequency dict of one date, as built by the source's repeated
`icons[icon] = icons.get(icon, 0) + 1`. -/
def iconTable (l : List String) : List (String × ℕ) :=
  l.foldl bumpIcon []

instance : Inhabited ForecastItem where
  default := { dt := 0, temp_min := 0, temp_max := 0, icon := "", pop := 0 }

/-- The samples of one calendar date, in feed order. -/
def groupOf (dateKey : ℕ → String) (items : List ForecastItem) (k : String) :
    List ForecastItem :=
  items.filter (fun it => dateKey it.dt = k)

/-- What one accumulator entry `(k, v)` means about the `done` samples
processed so far: its date's group is non-empty, `date_ts` is the first
group sample's `dt`, the temperatures are the group's running min/max, the
icon dict is the group's frequency table, and `pops` collects the group's
precipitation probabilities in order. -/
structure DayAccRep (dateKey : ℕ → String) (done : List ForecastItem)
    (k : String) (v : DayAcc) : Prop where
  nonempty : groupOf dateKey done k ≠ []
  anchor : v.date_ts = ((groupOf dateKey done k).headD default).dt
  tmin : v.temp_min = pyListMin ((groupOf dateKey done k).map ForecastItem.temp_min)
  tmax : v.temp_max = pyListMax ((groupOf dateKey done k).map ForecastItem.temp_max)
  icons : v.icons = iconTable ((groupOf dateKey done k).map ForecastItem.icon)
  pops : v.pops = (groupOf dateKey done k).map ForecastItem.pop

/-- Invariant of the grouping loop: the accumulator's keys are the distinct
date keys of the processed samples in first-occurrence order, and every entry
represents its date's group. -/
def BuildInv (dateKey : ℕ → String) (done : List ForecastItem)
    (acc : List (String × DayAcc)) : Prop :=
  acc.map Prod.fst = firstDedup (done.map (fun it => dateKey it.dt)) ∧
  ∀ p ∈ acc, DayAccRep dateKey done p.1 p.2

/-- A two-day grouping key for the concrete forecast examples. -/
def dayKeyW (n : ℕ) : String :=
  if n < 86400 then "1970-01-01" else "1970-01-02"

/-- Three concrete samples over two dates, fed out of chronological order
(a day-2 sample first). -/
def itemsW : List ForecastItem :=
  [ { dt := 90000, temp_min := 21, temp_max := 24, icon := "01d", pop := 0 },
    { dt := 100, temp_min := 10, temp_max := 15, icon := "10d", pop := 0 },
    { dt := 200, temp_min := 12, temp_max := 14, icon := "10d", pop := 1 } ]

/-- Two samples over two dates with the later date first: input for the
unsorted-output counterexample. -/
def itemsCx : List ForecastItem :=
  [ { dt := 90000, temp_min := 21, temp_max := 24, icon := "01d", pop := 0 },
    { dt := 100, temp_min := 10, temp_max := 15, icon := "10d", pop := 0 } ]

/-- The `risk_report` dict as it stands when persisted: the classifier output
plus the keys added by the orchestrator (`update(...)`, `final_level`,
`final_reasoning`, `trend`). -/
structure FullRiskReport where
  primary_level : String
  reasoning : String
  details : RiskDetails
  air_quality_report : AirQualityReport
  heat_risk_report : HeatReport
  heat_risk : String
  final_level : String
  final_reasoning : String
  trend : String
deriving DecidableEq

/-- The mocked satellite record of `agent_9_satellite_image_fetcher`. -/
structure SatelliteData where
  image_url : String
  description : String
deriving DecidableEq

/-- `agent_9_satellite_image_fetcher` of `run_agent_loop.py` lines 547-567
(pure mock keyed on the weather description). -/
def agent_9_satellite_image_fetcher (city : String) (weather_desc : String) :
    SatelliteData :=
  let city_main := cityMain city
  if strContains weather_desc "rain" then
    { image_url := s!"https://placehold.co/600x400/222222/999999?text=Satellite+View+(Cloudy)+{city_main}",
      description := "Significant cloud formations consistent with rain." }
  else if strContains weather_desc "thunderstorm" then
    { image_url := s!"https://placehold.co/600x400/111111/FFFFFF?text=Satellite+View+(Storm)+{city_main}",
      description := "Large, dense cumulonimbus cloud cluster detected." }
  else if strContains weather_desc "fog" || strContains weather_desc "haze" then
    { image_url := s!"https://placehold.co/600x400/555555/EEEEEE?text=Satellite+View+(Fog)+{city_main}",
      description := "Low-lying ground-level fog or haze visible." }
  else
    { image_url := s!"https://placehold.co/600x400/101419/555555?text=Satellite+View+{city_main}",
      description := "Clear skies, no major formations." }

/-- One Historical Record of the Memory Store (`log_entry` of the main loop;
fields whose content is opaque narrative text are kept as the strings the
cycle produced). -/
structure LogEntry where
  timestamp : String
  city : String
  final_risk_level : String
  risk_report : FullRiskReport
  recommendations : String
  analyzed_news : String
  raw_data : WeatherData
  forecast_daily : List DailySummary
  air_quality_report : AirQualityReport
  advanced_fetch_data : AdvancedData
  data_validation : String
  icon_analysis : String
  satellite_image_url : String
  satellite_analysis : String
deriving DecidableEq

/-- `agent_5_trend_forecaster` of `run_agent_loop.py` lines 435-487: filter
the store to the current city (case-insensitively), keep the last five
(`[-5:]`), return the fixed sentinel when fewer than two remain (this also
covers the missing/corrupt-file path, modelled as the empty store), otherwise
delegate to the enrichment oracle with its own error sentinel. -/
def agent_5_trend_forecaster (memory : List LogEntry) (city_name : String)
    (llm : Option String) : String :=
  let city_history := memory.filter (fun r => pyLower r.city = pyLower city_name)
  let recent_reports := city_history.drop (city_history.length - 5)
  if recent_reports.length < 2 then "No comprehensive trend data available."
  else
    match llm with
    | some txt => pyStrip txt
    | none => "Error analyzing trend."

/-- `save_to_memory_bank` of `run_agent_loop.py` lines 958-976: read the
whole store, append in memory, write the whole store back. -/
def save_to_memory_bank (memory : List LogEntry) (log_entry : LogEntry) :
    List LogEntry :=
  memory ++ [log_entry]

/-- Everything one cycle of the main loop consumes from outside: the two
primary fetches (`none` = fetch failed / no data), the auxiliary fetches, and
one oracle per enrichment call, in the order the loop makes them. -/
structure CycleEnv where
  timestamp : String
  city : String
  dateKey : ℕ → String
  weather : Option WeatherData
  forecast : Option (List ForecastItem)
  aqi_data : Option AqiData
  advanced : AdvancedData
  llm_air : Option String
  llm_validator : Option String
  llm_icon : Option String
  llm_prioritizer : Option String
  llm_trend : Option String
  llm_recommender : Option String
  news_articles : List String
  llm_news : Option String
  llm_satellite : Option String

/-- One iteration of the `while True` body of `run_agent_loop.py` lines
987-1108 (console printing and the PDF/email dispatch collaborators are
outside the core).  The guard `if weather_json and forecast_json:` skips every
downstream stage, including persistence, when either primary fetch produced no
data; otherwise the stages run in source order and the completed record is
appended to the store.  A `TypeError` escaping a stage (nothing in the loop
catches it — only `KeyboardInterrupt` is handled) surfaces as `Except.error`. -/
def runCycle (env : CycleEnv) (store : List LogEntry) :
    Except PyErr (List LogEntry) :=
  match env.weather, env.forecast with
  | some w, some fc => do
      let forecast_daily := agent_1_5_forecast_processor env.dateKey fc
      let risk := agent_2_risk_classifier w
      let heat := agent_2_7_heat_classifier (HVal.num risk.details.temp_c)
        risk.details.humidity
      let air := agent_2_5_air_quality_analyzer env.aqi_data env.advanced env.llm_air
      let data_validation := (env.llm_validator.map pyStrip).getD "Validation failed."
      let icon_analysis := (env.llm_icon.map pyStrip).getD "Error analyzing weather icon visually."
      let final_risk_result ← agent_11_alert_prioritizer risk.primary_level
        heat.heat_risk air env.llm_prioritizer
      let final_level := parseFinalLevel final_risk_result
      let final_reasoning := parseFinalReasoning final_risk_result
      let trend := agent_5_trend_forecaster store env.city env.llm_trend
      let rec_out ← agent_3_action_recommender risk.primary_level heat.heat_risk
        air env.llm_recommender
      let analyzed_news :=
        if env.news_articles.isEmpty then "No relevant local safety news found."
        else (env.llm_news.map pyStrip).getD "Error analyzing news."
      let sat := agent_9_satellite_image_fetcher env.city risk.details.description
      let sat_analysis := (env.llm_satellite.map pyStrip).getD "Error analyzing satellite data."
      let log_entry : LogEntry :=
        { timestamp := env.timestamp, city := env.city,
          final_risk_level := final_level,
          risk_report :=
            { primary_level := risk.primary_level, reasoning := risk.reasoning,
              details := risk.details, air_quality_report := air,
              heat_risk_report := heat, heat_risk := heat.heat_risk,
              final_level := final_level, final_reasoning := final_reasoning,
              trend := trend },
          recommendations := rec_out.text, analyzed_news := analyzed_news,
          raw_data := w, forecast_daily := forecast_daily,
          air_quality_report := air, advanced_fetch_data := env.advanced,
          data_validation := data_validation, icon_analysis := icon_analysis,
          satellite_image_url := sat.image_url, satellite_analysis := sat_analysis }
      return save_to_memory_bank store log_entry
  | _, _ => Except.ok store

/-- A cycle whose primary weather fetch returned no data (all the enrichment
oracles are irrelevant: the guard skips every stage). -/
def envNoWeather : CycleEnv :=
  { timestamp := "2024-01-01T00:00:00", city := "Kerala,IN",
    dateKey := fun _ => "", weather := none, forecast := some [],
    aqi_data := none, advanced := { uv_index := 0, tomorrow_aqi := AqiVal.na },
    llm_air := none, llm_validator := none, llm_icon := none,
    llm_prioritizer := none, llm_trend := none, llm_recommender := none,
    news_articles := [], llm_news := none, llm_satellite := none }

/-- A cycle with calm weather whose air-quality fetch failed: the analyzer
stores the `"N/A"` sentinel for the index, which the prioritizer then compares
against the integer scores. -/
def envC9 : CycleEnv :=
  { timestamp := "2024-01-01T00:00:00", city := "Kerala,IN",
    dateKey := fun _ => "", weather := some
      { wind_speed := some 2, description := some "clear sky",
        icon := some "01d", temp := some 30, humidity := some 50 },
    forecast := some [], aqi_data := none,
    advanced := { uv_index := 0, tomorrow_aqi := AqiVal.na },
    llm_air := some "ok", llm_validator := some "Data is consistent and reliable.",
    llm_icon := some "ok", llm_prioritizer := some "LOW: calm",
    llm_trend := some "stable", llm_recommender := some "rest indoors",
    news_articles := [], llm_news := none, llm_satellite := some "clear" }

/-- A cycle with an active thunderstorm (primary risk HIGH, numeric floor 4)
whose prioritizer oracle nevertheless answers with a `LOW` label; humidity is
absent from the feed, so the heat classifier takes its invalid-input branch
and reports LOW. -/
def envC1 : CycleEnv :=
  { timestamp := "2024-01-01T00:00:00", city := "Kerala,IN",
    dateKey := fun _ => "", weather := some
      { wind_speed := some 25, description := some "thunderstorm",
        icon := some "11d", temp := some 22, humidity := none },
    forecast := some [],
    aqi_data := some { aqi := some 1, components := { pm2_5 := none, o3 := none } },
    advanced := { uv_index := 0, tomorrow_aqi := AqiVal.int 1 },
    llm_air := some "Air quality is good.", llm_validator := some "Data is consistent and reliable.",
    llm_icon := some "Storm icon matches description.",
    llm_prioritizer := some "LOW: Conditions appear calm.",
    llm_trend := some "stable", llm_recommender := some "stay alert",
    news_articles := [], llm_news := none, llm_satellite := some "storm cluster" }

/-!
## Theorems
-/

/-- C10: the inter-cycle wait's change detection is case-insensitive — the
wait aborts (returns `true`) exactly when some polled directive value differs
from the start-of-sleep location after lowercasing; when every polled value
matches after lowercasing (including changes of letter case only) the full
duration elapses and the function returns `false`. -/
theorem C10_sleep_change_detection (polls : List String) (start : String) :
    smart_sleep_and_watch polls start = true ↔
      ∃ p ∈ polls, pyLower p ≠ pyLower start := by
  induction polls with
  | nil => simp [smart_sleep_and_watch]
  | cons p rest ih =>
      by_cases hp : pyLower p = pyLower start
      · simp [smart_sleep_and_watch, hp, ih]
      · simp [smart_sleep_and_watch, hp]

/-- C8: for every input where temperature or humidity is non-numeric, the
heat classifier returns heat_risk LOW, a null heat index (the `"N/A"` value),
and the fixed explanatory warning; the embedding is a total function, so no
exception is possible. -/
theorem C8_heat_invalid_input (t hum : HVal)
    (h : t.isNum = false ∨ hum.isNum = false) :
    agent_2_7_heat_classifier t hum =
      { heat_index_c := none, heat_risk := "LOW",
        warning := "Heat calculation skipped due to missing temperature or humidity data." } := by
  cases t <;> cases hum <;> simp_all [HVal.isNum, agent_2_7_heat_classifier]

/-- Witness for C8 at the concrete input the orchestrator produces when
`main.humidity` is absent. -/
theorem C8_heat_invalid_input_witness :
    ((HVal.num 30).isNum = false ∨ (HVal.str "N/A").isNum = false) ∧
    agent_2_7_heat_classifier (HVal.num 30) (HVal.str "N/A") =
      { heat_index_c := none, heat_risk := "LOW",
        warning := "Heat calculation skipped due to missing temperature or humidity data." } :=
  ⟨Or.inr rfl, C8_heat_invalid_input (HVal.num 30) (HVal.str "N/A") (Or.inr rfl)⟩

/-- C7: the recommender returns the fixed calm-conditions string without
invoking the enrichment service exactly when primary LOW, heat LOW and the
(numeric) air-quality index is at most 2; if any of the three conditions
fails, the enrichment path is taken. -/
theorem C7_recommender_short_circuit (primary heat : String)
    (air : AirQualityReport) (n : ℤ) (llm : Option String)
    (haqi : air.aqi = AqiVal.int n) :
    (primary = "LOW" ∧ heat = "LOW" ∧ n ≤ 2 →
       agent_3_action_recommender primary heat air llm =
         Except.ok { used_service := false, text := calmString }) ∧
    (¬ (primary = "LOW" ∧ heat = "LOW" ∧ n ≤ 2) →
       agent_3_action_recommender primary heat air llm =
         Except.ok (recommenderCall llm)) := by
  constructor
  · rintro ⟨h1, h2, h3⟩
    simp only [agent_3_action_recommender, h1, h2, haqi, pyLeInt, if_true,
      decide_eq_true h3]
    rfl
  · intro hneg
    by_cases h1 : primary = "LOW"
    · by_cases h2 : heat = "LOW"
      · have h3 : ¬ n ≤ 2 := fun hc => hneg ⟨h1, h2, hc⟩
        simp only [agent_3_action_recommender, h1, h2, haqi, pyLeInt, if_true,
          decide_eq_false h3]
        rfl
      · simp only [agent_3_action_recommender, h1, if_true, if_neg h2]
        rfl
    · simp only [agent_3_action_recommender, if_neg h1]
      rfl

/-- Witness for C7: both directions at concrete inputs (calm short-circuit at
(LOW, LOW, aqi 1); enrichment path at (HIGH, LOW, aqi 1)). -/
theorem C7_recommender_short_circuit_witness :
    agent_3_action_recommender "LOW" "LOW"
      { aqi := AqiVal.int 1, analysis := "a", tomorrow_aqi := AqiVal.na } none =
      Except.ok { used_service := false, text := calmString } ∧
    agent_3_action_recommender "HIGH" "LOW"
      { aqi := AqiVal.int 1, analysis := "a", tomorrow_aqi := AqiVal.na } none =
      Except.ok (recommenderCall none) :=
  ⟨(C7_recommender_short_circuit "LOW" "LOW" _ 1 none rfl).1 ⟨rfl, rfl, by decide⟩,
   (C7_recommender_short_circuit "HIGH" "LOW" _ 1 none rfl).2 (by simp)⟩

/-- C4 counterexample: at temperature 26.7 °C the Fahrenheit conversion is
80.06, which is NOT below 80, so the classifier takes the polynomial branch,
not the claimed no-adjustment branch (the polynomial result still happens to
round back to 26.7). -/
theorem C4_boundary_counterexample :
    ¬ (T_fahrenheit (26.7 : ℚ) < 80) ∧
    T_fahrenheit (26.7 : ℚ) = 4003 / 50 ∧
    (agent_2_7_heat_classifier (HVal.num (26.7 : ℚ)) (HVal.num 40)).heat_index_c
      = some (26.7 : ℚ) := by
  have h80 : ¬ (T_fahrenheit (26.7 : ℚ) < 80) := by norm_num [T_fahrenheit]
  refine ⟨h80, by norm_num [T_fahrenheit], ?_⟩
  have hpoly : (noaaPoly (T_fahrenheit (26.7 : ℚ)) 40 - 32) * 5 / 9
      = 11992634825443 / 450000000000 := by
    norm_num [noaaPoly, T_fahrenheit]
  simp only [agent_2_7_heat_classifier, if_neg h80, hpoly, round1, round_eq]
  norm_num

/-- C4 (amended): for every numeric input whose Fahrenheit conversion is below
80 the classifier takes the no-adjustment branch and the reported Celsius heat
index equals the input temperature rounded to one decimal place (26.7 °C is
not such an input: it converts to 80.06 °F). -/
theorem C4_no_adjustment_branch (t r : ℚ) (h : T_fahrenheit t < 80) :
    (agent_2_7_heat_classifier (HVal.num t) (HVal.num r)).heat_index_c
      = some (round1 t) := by
  have ht : (T_fahrenheit t - 32) * 5 / 9 = t := by unfold T_fahrenheit; ring
  simp [agent_2_7_heat_classifier, h, ht]

/-- Witness for C4's amended statement at 26 °C (= 78.8 °F < 80), 40 %. -/
theorem C4_no_adjustment_branch_witness :
    T_fahrenheit (26 : ℚ) < 80 ∧
    (agent_2_7_heat_classifier (HVal.num 26) (HVal.num 40)).heat_index_c
      = some (round1 26) :=
  ⟨by norm_num [T_fahrenheit], C4_no_adjustment_branch 26 40 (by norm_num [T_fahrenheit])⟩

/-- C3: the risk classifier is a first-match decision list — any condition
text containing "thunderstorm" at wind speed 25 m/s yields HIGH with the
thunderstorm reasoning (not the wind reasoning), and any input with wind at
most 15 whose text contains none of "rain"/"thunderstorm"/"squalls" yields
LOW with "Conditions are calm." -/
theorem C3_first_match_order :
    (∀ w : WeatherData,
        strContains (w.description.getD "unknown") "thunderstorm" = true →
        w.wind_speed = some 25 →
        (agent_2_risk_classifier w).primary_level = "HIGH" ∧
        (agent_2_risk_classifier w).reasoning
          = "Active thunderstorm or squalls reported.") ∧
    (∀ w : WeatherData,
        w.wind_speed.getD 0 ≤ 15 →
        strContains (w.description.getD "unknown") "rain" = false →
        strContains (w.description.getD "unknown") "thunderstorm" = false →
        strContains (w.description.getD "unknown") "squalls" = false →
        (agent_2_risk_classifier w).primary_level = "LOW" ∧
        (agent_2_risk_classifier w).reasoning = "Conditions are calm.") := by
  constructor
  · intro w hth _
    simp [agent_2_risk_classifier, hth]
  · intro w hw hrain hth hsq
    have h20 : ¬ (w.wind_speed.getD 0 > 20) := not_lt.mpr (hw.trans (by norm_num))
    have h15 : ¬ (w.wind_speed.getD 0 > 15) := not_lt.mpr hw
    simp [agent_2_risk_classifier, hrain, hth, hsq, h15, h20]

/-- Witness for C3: thunderstorm text at wind 25, and calm text at wind 10. -/
theorem C3_first_match_order_witness :
    ((agent_2_risk_classifier
        { wind_speed := some 25, description := some "thunderstorm with heavy rain",
          icon := some "11d", temp := some 22, humidity := some 60 }).primary_level = "HIGH" ∧
      (agent_2_risk_classifier
        { wind_speed := some 25, description := some "thunderstorm with heavy rain",
          icon := some "11d", temp := some 22, humidity := some 60 }).reasoning
        = "Active thunderstorm or squalls reported.") ∧
    ((agent_2_risk_classifier
        { wind_speed := some 10, description := some "clear sky",
          icon := some "01d", temp := some 30, humidity := some 50 }).primary_level = "LOW" ∧
      (agent_2_risk_classifier
        { wind_speed := some 10, description := some "clear sky",
          icon := some "01d", temp := some 30, humidity := some 50 }).reasoning
        = "Conditions are calm.") :=
  ⟨C3_first_match_order.1 _ (by decide) rfl,
   C3_first_match_order.2 _ (by decide) (by decide) (by decide) (by decide)⟩

/-- C2: when the primary weather fetch or the forecast fetch returns no data,
the cycle appends nothing to the Memory Store — every downstream stage is
skipped and the store is returned unchanged. -/
theorem C2_primary_fetch_failure_no_record (env : CycleEnv)
    (store : List LogEntry) (h : env.weather = none ∨ env.forecast = none) :
    runCycle env store = Except.ok store := by
  obtain ⟨ts, city, dk, wx, fc, aq, adv, l1, l2, l3, l4, l5, l6, news, l7, l8⟩ := env
  rcases h with h | h
  · simp only at h
    subst h
    cases fc <;> rfl
  · simp only at h
    subst h
    cases wx <;> rfl

/-- Witness for C2 at a concrete failed-weather cycle with an empty store. -/
theorem C2_primary_fetch_failure_no_record_witness :
    envNoWeather.weather = none ∧ runCycle envNoWeather [] = Except.ok [] :=
  ⟨rfl, C2_primary_fetch_failure_no_record envNoWeather [] (Or.inl rfl)⟩

/-- C9 is violated by the code: in a cycle whose air-quality fetch failed, the
`"N/A"` sentinel reaches `agent_11_alert_prioritizer`, whose
`max(primary_score, heat_score, aqi_score)` compares a string with integers
and raises `TypeError`, which no per-cycle handler catches (the loop handles
only `KeyboardInterrupt`); the recommender's short-circuit comparison
`aqi <= 2` raises the same way when both levels are LOW. -/
theorem C9_na_sentinel_raises_typeerror :
    runCycle envC9 [] = Except.error PyErr.typeError ∧
    agent_3_action_recommender "LOW" "LOW"
      { aqi := AqiVal.na, analysis := "No data", tomorrow_aqi := AqiVal.na }
      (some "advice") = Except.error PyErr.typeError :=
  ⟨rfl, rfl⟩

/-- C1 is violated by the code: on enrichment success the prioritizer returns
the service's text verbatim and the loop parses the level from it, so a
service answer of "LOW: ..." makes the persisted final_level LOW (severity 2)
even though the numeric floor max(severity HIGH, severity LOW, aqi 1) is 4 —
the returned level CAN downgrade the numeric floor. -/
theorem C1_enrichment_downgrades_floor :
    (runCycle envC1 []).map (List.map (fun e =>
        (e.risk_report.primary_level, e.risk_report.heat_risk,
         e.risk_report.air_quality_report.aqi, e.risk_report.final_level)))
      = Except.ok [("HIGH", "LOW", AqiVal.int 1, "LOW")] ∧
    severityScore "LOW" <
      max (max (severityScore "HIGH") (severityScore "LOW")) 1 :=
  ⟨rfl, by decide⟩

/-- `firstDedup` produces no duplicates. -/
theorem firstDedup_nodup (l : List String) : (firstDedup l).Nodup := by
  induction l with
  | nil => simp [firstDedup]
  | cons a rest ih =>
      simp only [firstDedup, List.nodup_cons]
      refine ⟨fun hmem => ?_, ih.filter _⟩
      simp only [List.mem_filter, decide_eq_true_eq] at hmem
      exact hmem.2 rfl

/-- `firstDedup` keeps exactly the elements of the list. -/
theorem mem_firstDedup (a : String) (l : List String) :
    a ∈ firstDedup l ↔ a ∈ l := by
  induction l with
  | nil => simp [firstDedup]
  | cons b rest ih =>
      by_cases hab : a = b
      · subst hab; simp [firstDedup]
      · simp [firstDedup, List.mem_filter, hab, ih]

/-- Appending one element extends a first-occurrence dedup at the end iff the
element is new. -/
theorem firstDedup_append (l : List String) (a : String) :
    firstDedup (l ++ [a]) =
      if a ∈ l then firstDedup l else firstDedup l ++ [a] := by
  induction l with
  | nil => simp [firstDedup]
  | cons b rest ih =>
      by_cases hab : a = b
      · subst hab
        by_cases har : a ∈ rest <;>
          simp [firstDedup, ih, har, List.filter_append]
      · by_cases har : a ∈ rest
        · simp [firstDedup, ih, har, hab, Ne.symm hab]
        · simp [firstDedup, ih, har, hab, Ne.symm hab, List.filter_append]

/-- The running-minimum update of the source
(`if new < cur then new else cur`) is `min cur new`. -/
theorem if_lt_eq_min (cur new : ℚ) :
    (if new < cur then new else cur) = min cur new := by
  rcases lt_or_le new cur with h | h
  · rw [if_pos h, min_eq_right h.le]
  · rw [if_neg (not_lt.mpr h), min_eq_left h]

/-- The running-maximum update of the source
(`if new > cur then new else cur`) is `max cur new`. -/
theorem if_gt_eq_max (cur new : ℚ) :
    (if new > cur then new else cur) = max cur new := by
  rcases lt_or_le cur new with h | h
  · rw [if_pos h, max_eq_right h.le]
  · rw [if_neg (not_lt.mpr h), max_eq_left h]

theorem foldl_min_mem (xs : List ℚ) : ∀ x : ℚ, xs.foldl min x ∈ x :: xs := by
  induction xs with
  | nil => intro x; simp
  | cons a xs ih =>
      intro x
      simp only [List.foldl_cons]
      rcases List.mem_cons.mp (ih (min x a)) with he | hm
      · rcases min_choice x a with hc | hc
        · rw [he, hc]; exact List.mem_cons_self _ _
        · rw [he, hc]; exact List.mem_cons_of_mem _ (List.mem_cons_self _ _)
      · exact List.mem_cons_of_mem _ (List.mem_cons_of_mem _ hm)

theorem foldl_min_le (xs : List ℚ) : ∀ x : ℚ, ∀ y ∈ x :: xs, xs.foldl min x ≤ y := by
  induction xs with
  | nil =>
      intro x y hy
      rcases List.mem_cons.mp hy with rfl | h
      · exact le_refl _
      · simp at h
  | cons a xs ih =>
      intro x y hy
      simp only [List.foldl_cons]
      have hhead : xs.foldl min (min x a) ≤ min x a :=
        ih (min x a) (min x a) (List.mem_cons_self _ _)
      rcases List.mem_cons.mp hy with rfl | h
      · exact le_trans hhead (min_le_left _ _)
      · rcases List.mem_cons.mp h with rfl | h2
        · exact le_trans hhead (min_le_right _ _)
        · exact ih (min x a) y (List.mem_cons_of_mem _ h2)

theorem foldl_max_mem (xs : List ℚ) : ∀ x : ℚ, xs.foldl max x ∈ x :: xs := by
  induction xs with
  | nil => intro x; simp
  | cons a xs ih =>
      intro x
      simp only [List.foldl_cons]
      rcases List.mem_cons.mp (ih (max x a)) with he | hm
      · rcases max_choice x a with hc | hc
        · rw [he, hc]; exact List.mem_cons_self _ _
        · rw [he, hc]; exact List.mem_cons_of_mem _ (List.mem_cons_self _ _)
      · exact List.mem_cons_of_mem _ (List.mem_cons_of_mem _ hm)

theorem foldl_le_max (xs : List ℚ) : ∀ x : ℚ, ∀ y ∈ x :: xs, y ≤ xs.foldl max x := by
  induction xs with
  | nil =>
      intro x y hy
      rcases List.mem_cons.mp hy with rfl | h
      · exact le_refl _
      · simp at h
  | cons a xs ih =>
      intro x y hy
      simp only [List.foldl_cons]
      have hhead : max x a ≤ xs.foldl max (max x a) :=
        ih (max x a) (max x a) (List.mem_cons_self _ _)
      rcases List.mem_cons.mp hy with rfl | h
      · exact le_trans (le_max_left _ _) hhead
      · rcases List.mem_cons.mp h with rfl | h2
        · exact le_trans (le_max_right _ _) hhead
        · exact ih (max x a) y (List.mem_cons_of_mem _ h2)

/-- The minimum of a non-empty list is one of its elements. -/
theorem pyListMin_mem (l : List ℚ) (h : l ≠ []) : pyListMin l ∈ l := by
  cases l with
  | nil => exact absurd rfl h
  | cons x xs => exact foldl_min_mem xs x

/-- The minimum of a list bounds every element from below. -/
theorem pyListMin_le (l : List ℚ) (y : ℚ) (hy : y ∈ l) : pyListMin l ≤ y := by
  cases l with
  | nil => simp at hy
  | cons x xs => exact foldl_min_le xs x y hy

/-- The maximum of a non-empty list is one of its elements. -/
theorem pyListMax_mem (l : List ℚ) (h : l ≠ []) : pyListMax l ∈ l := by
  cases l with
  | nil => exact absurd rfl h
  | cons x xs => exact foldl_max_mem xs x

/-- The maximum of a list bounds every element from above. -/
theorem le_pyListMax (l : List ℚ) (y : ℚ) (hy : y ∈ l) : y ≤ pyListMax l := by
  cases l with
  | nil => simp at hy
  | cons x xs => exact foldl_le_max xs x y hy

/-- Extending a non-empty running minimum by one element. -/
theorem pyListMin_append (l : List ℚ) (x : ℚ) (h : l ≠ []) :
    pyListMin (l ++ [x]) = min (pyListMin l) x := by
  cases l with
  | nil => exact absurd rfl h
  | cons a as => simp [pyListMin, List.foldl_append]

/-- Extending a non-empty running maximum by one element. -/
theorem pyListMax_append (l : List ℚ) (x : ℚ) (h : l ≠ []) :
    pyListMax (l ++ [x]) = max (pyListMax l) x := by
  cases l with
  | nil => exact absurd rfl h
  | cons a as => simp [pyListMax, List.foldl_append]

/-- The dict update `icons[i] = icons.get(i, 0) + 1` on a table with distinct
keys `keys` and counts `c`: an in-place increment when present, an append of
`(i, 1)` when absent. -/
theorem bumpIcon_map_count (a : String) (c : String → ℕ) :
    ∀ keys : List String, keys.Nodup →
      bumpIcon (keys.map (fun i => (i, c i))) a =
        if a ∈ keys then keys.map (fun i => (i, if i = a then c i + 1 else c i))
        else keys.map (fun i => (i, c i)) ++ [(a, 1)] := by
  intro keys
  induction keys with
  | nil => intro _; simp [bumpIcon]
  | cons k ks ih =>
      intro hnd
      rcases List.nodup_cons.mp hnd with ⟨hk, hnd'⟩
      by_cases hka : k = a
      · subst hka
        simp only [List.map_cons, bumpIcon, if_pos rfl, List.mem_cons, true_or,
          if_true]
        refine congrArg (fun t => (k, c k + 1) :: t) ?_
        exact (List.map_congr_left fun i hi => by
          have : i ≠ k := fun he => hk (he ▸ hi)
          simp [this]).symm
      · simp only [List.map_cons, bumpIcon, if_neg hka, ih hnd']
        by_cases har : a ∈ ks
        · simp [har, hka, Ne.symm hka]
        · simp [har, hka, Ne.symm hka]

/-- Folding one more icon into the table. -/
theorem iconTable_append (l : List String) (a : String) :
    iconTable (l ++ [a]) = bumpIcon (iconTable l) a := by
  simp [iconTable, List.foldl_append]

/-- The icon frequency dict is exactly: the distinct icons in
first-occurrence order, each paired with its number of occurrences. -/
theorem iconTable_eq (l : List String) :
    iconTable l = (firstDedup l).map (fun i => (i, l.count i)) := by
  induction l using List.reverseRecOn with
  | nil => simp [iconTable, firstDedup]
  | append_singleton l a ih =>
      rw [iconTable_append, ih,
        bumpIcon_map_count a (fun i => l.count i) (firstDedup l) (firstDedup_nodup l),
        firstDedup_append]
      by_cases hal : a ∈ l
      · rw [if_pos ((mem_firstDedup a l).mpr hal), if_pos hal]
        refine List.map_congr_left fun i _ => ?_
        by_cases hia : i = a <;>
          simp [hia, List.count_append, List.count_cons, List.count_nil]
      · rw [if_neg (fun h => hal ((mem_firstDedup a l).mp h)), if_neg hal,
          List.map_append]
        refine congrArg₂ (· ++ ·) (List.map_congr_left fun i hi => ?_) ?_
        · have hia : i ≠ a := fun he => hal (he ▸ (mem_firstDedup i l).mp hi)
          simp [hia, List.count_append, List.count_cons, List.count_nil]
        · have : l.count a = 0 := List.count_eq_zero.mpr hal
          simp [List.count_append, List.count_cons, List.count_nil, this]

/-- `pickMax` never returns something smaller than any scanned element. -/
theorem pickMax_ge_mem (l : List (String × ℕ)) :
    ∀ b : String × ℕ, ∀ q ∈ b :: l, q.2 ≤ (pickMax b l).2 := by
  induction l with
  | nil =>
      intro b q hq
      rcases List.mem_cons.mp hq with rfl | h
      · exact le_refl _
      · simp at h
  | cons p l ih =>
      intro b q hq
      have hstep : pickMax b (p :: l) = pickMax (if p.2 > b.2 then p else b) l := rfl
      rw [hstep]
      have hble : b.2 ≤ (if p.2 > b.2 then p else b).2 := by
        by_cases hp : p.2 > b.2 <;> simp [hp]
        · exact le_of_lt hp
      have hple : p.2 ≤ (if p.2 > b.2 then p else b).2 := by
        by_cases hp : p.2 > b.2 <;> simp [hp]
        · exact le_of_not_lt hp
      have hhead := ih (if p.2 > b.2 then p else b) (if p.2 > b.2 then p else b)
        (List.mem_cons_self _ _)
      rcases List.mem_cons.mp hq with rfl | h
      · exact le_trans hble hhead
      · rcases List.mem_cons.mp h with rfl | h2
        · exact le_trans hple hhead
        · exact ih _ q (List.mem_cons_of_mem _ h2)

/-- `pickMax` returns the first element of the scanned sequence attaining the
maximum: the sequence splits around the result, with everything before it
strictly smaller. -/
theorem pickMax_split (l : List (String × ℕ)) :
    ∀ b : String × ℕ, ∃ l₁ l₂, b :: l = l₁ ++ pickMax b l :: l₂ ∧
      ∀ q ∈ l₁, q.2 < (pickMax b l).2 := by
  induction l with
  | nil => exact fun b => ⟨[], [], rfl, by simp⟩
  | cons p l ih =>
      intro b
      have hstep : pickMax b (p :: l) = pickMax (if p.2 > b.2 then p else b) l := rfl
      by_cases hp : p.2 > b.2
      · rw [hstep, if_pos hp]
        obtain ⟨l₁, l₂, heq, hlt⟩ := ih p
        refine ⟨b :: l₁, l₂, by rw [List.cons_append, ← heq], ?_⟩
        intro q hq
        rcases List.mem_cons.mp hq with rfl | h
        · exact lt_of_lt_of_le hp
            (pickMax_ge_mem l p p (List.mem_cons_self _ _))
        · exact hlt q h
      · rw [hstep, if_neg hp]
        obtain ⟨l₁, l₂, heq, hlt⟩ := ih b
        cases l₁ with
        | nil =>
            simp only [List.nil_append] at heq
            injection heq with h1 h2
            refine ⟨[], p :: l, ?_, by simp⟩
            rw [List.nil_append, ← h1]
        | cons x t =>
            simp only [List.cons_append, List.cons.injEq] at heq
            obtain ⟨hbx, hl⟩ := heq
            subst hbx
            have hblt : b.2 < (pickMax b l).2 := hlt b (List.mem_cons_self _ _)
            refine ⟨b :: p :: t, l₂, ?_, ?_⟩
            · rw [List.cons_append, List.cons_append, ← hl]
            · intro q hq
              rcases List.mem_cons.mp hq with rfl | h
              · exact hblt
              · rcases List.mem_cons.mp h with rfl | h2
                · exact lt_of_le_of_lt (le_of_not_lt hp) hblt
                · exact hlt q (List.mem_cons_of_mem _ h2)

/-- `max(icons, key=icons.get)` on the frequency dict of a non-empty icon
sequence: the result occurs in the sequence, its count is maximal, and among
the maximal-count icons it is the first by insertion order (the dedup in
first-occurrence order splits around it with strictly smaller counts before
it). -/
theorem mostCommonIcon_spec (l : List String) (h : l ≠ []) :
    mostCommonIcon (iconTable l) ∈ l ∧
    (∀ x ∈ l, l.count x ≤ l.count (mostCommonIcon (iconTable l))) ∧
    ∃ t₁ t₂, firstDedup l = t₁ ++ mostCommonIcon (iconTable l) :: t₂ ∧
      ∀ x ∈ t₁, l.count x < l.count (mostCommonIcon (iconTable l)) := by
  cases l with
  | nil => exact absurd rfl h
  | cons a l' =>
      set L : List String := a :: l' with hL
      have hfd : firstDedup L = a :: (firstDedup l').filter (fun b => b ≠ a) := rfl
      set ks : List String := (firstDedup l').filter (fun b => b ≠ a) with hks
      have htab : iconTable L =
          (a, L.count a) :: ks.map (fun i => (i, L.count i)) := by
        rw [iconTable_eq, hfd]
        simp
      have hmc : mostCommonIcon (iconTable L) =
          (pickMax (a, L.count a) (ks.map (fun i => (i, L.count i)))).1 := by
        rw [htab]; rfl
      obtain ⟨l₁, l₂, heq, hlt⟩ := pickMax_split (ks.map (fun i => (i, L.count i)))
        (a, L.count a)
      have hmap : (a, L.count a) :: ks.map (fun i => (i, L.count i)) =
          (firstDedup L).map (fun i => (i, L.count i)) := by
        rw [hfd]; simp
      have hsplit : (firstDedup L).map (fun i => (i, L.count i)) =
          l₁ ++ pickMax (a, L.count a) (ks.map (fun i => (i, L.count i))) :: l₂ := by
        rw [← hmap, heq]
      obtain ⟨k₁, krest, hkeys, hmap₁, hmaprest⟩ :=
        List.map_eq_append_iff.mp hsplit
      obtain ⟨j, k₂, hkrest, hfj, hmap₂⟩ := List.map_eq_cons_iff.mp hmaprest
      have hpk1 : (pickMax (a, L.count a) (ks.map (fun i => (i, L.count i)))).1 = j := by
        rw [← hfj]
      have hpk2 : (pickMax (a, L.count a) (ks.map (fun i => (i, L.count i)))).2
          = L.count j := by
        rw [← hfj]
      have hjmem : j ∈ firstDedup L := by
        rw [hkeys, hkrest]
        exact List.mem_append_right _ (List.mem_cons_self _ _)
      have hmcj : mostCommonIcon (iconTable L) = j := by rw [hmc, hpk1]
      refine ⟨?_, ?_, ?_⟩
      · rw [hmcj]
        exact (mem_firstDedup j L).mp hjmem
      · intro x hx
        rw [hmcj]
        have hxfd : x ∈ firstDedup L := (mem_firstDedup x L).mpr hx
        have hxmap : (x, L.count x) ∈ (firstDedup L).map (fun i => (i, L.count i)) :=
          List.mem_map_of_mem _ hxfd
        rw [← hmap] at hxmap
        have := pickMax_ge_mem (ks.map (fun i => (i, L.count i))) (a, L.count a)
          (x, L.count x) hxmap
        rw [hpk2] at this
        exact this
      · refine ⟨k₁, k₂, ?_, ?_⟩
        · rw [hmcj, hkeys, hkrest]
        · intro x hx
          rw [hmcj]
          have hxmap : (x, L.count x) ∈ l₁ := by
            rw [← hmap₁]
            exact List.mem_map_of_mem _ hx
          have := hlt (x, L.count x) hxmap
          rw [hpk2] at this
          exact this

/-- Membership in a date's group. -/
theorem mem_groupOf (dk : ℕ → String) (items : List ForecastItem)
    (k : String) (it : ForecastItem) :
    it ∈ groupOf dk items k ↔ it ∈ items ∧ dk it.dt = k := by
  simp [groupOf, List.mem_filter]

/-- A date key that never occurs has an empty group. -/
theorem groupOf_eq_nil (dk : ℕ → String) (items : List ForecastItem)
    (k : String) (h : k ∉ items.map (fun it => dk it.dt)) :
    groupOf dk items k = [] := by
  rw [groupOf, List.filter_eq_nil_iff]
  intro it hit
  simp only [decide_eq_true_eq]
  intro he
  exact h (he ▸ List.mem_map_of_mem _ hit)

/-- Appending a sample of the same date extends its group at the end. -/
theorem groupOf_append_same (dk : ℕ → String) (done : List ForecastItem)
    (it : ForecastItem) :
    groupOf dk (done ++ [it]) (dk it.dt) = groupOf dk done (dk it.dt) ++ [it] := by
  simp [groupOf, List.filter_append]

/-- Appending a sample of another date leaves a group unchanged. -/
theorem groupOf_append_other (dk : ℕ → String) (done : List ForecastItem)
    (it : ForecastItem) (k : String) (h : k ≠ dk it.dt) :
    groupOf dk (done ++ [it]) k = groupOf dk done k := by
  have hne : dk it.dt ≠ k := Ne.symm h
  simp [groupOf, List.filter_append, hne]

/-- The key of an accumulator entry is the date key of its anchor. -/
theorem dayAccRep_key (dk : ℕ → String) (done : List ForecastItem)
    (k : String) (v : DayAcc) (h : DayAccRep dk done k v) :
    dk v.date_ts = k := by
  rcases hg : groupOf dk done k with _ | ⟨it0, g'⟩
  · exact absurd hg h.nonempty
  · have hmem : it0 ∈ groupOf dk done k := hg ▸ List.mem_cons_self _ _
    have := (mem_groupOf dk done k it0).mp hmem
    have hanchor := h.anchor
    rw [hg] at hanchor
    simp only [List.headD_cons] at hanchor
    rw [hanchor]
    exact this.2

/-- An entry for another date still represents its group after one more
sample. -/
theorem dayAccRep_mono (dk : ℕ → String) (done : List ForecastItem)
    (it : ForecastItem) (k : String) (v : DayAcc) (hk : k ≠ dk it.dt)
    (h : DayAccRep dk done k v) : DayAccRep dk (done ++ [it]) k v := by
  have hg := groupOf_append_other dk done it k hk
  exact ⟨hg ▸ h.nonempty, hg ▸ h.anchor, hg ▸ h.tmin, hg ▸ h.tmax,
    hg ▸ h.icons, hg ▸ h.pops⟩

/-- The in-place update keeps representing the group when a sample of the
same date arrives. -/
theorem dayAccRep_upd (dk : ℕ → String) (done : List ForecastItem)
    (it : ForecastItem) (v : DayAcc)
    (h : DayAccRep dk done (dk it.dt) v) :
    DayAccRep dk (done ++ [it]) (dk it.dt) (updAcc v it) := by
  have hg := groupOf_append_same dk done it
  have hne := h.nonempty
  have hmapne : (groupOf dk done (dk it.dt)).map ForecastItem.temp_min ≠ [] := by
    simpa using hne
  have hmapne2 : (groupOf dk done (dk it.dt)).map ForecastItem.temp_max ≠ [] := by
    simpa using hne
  refine ⟨?_, ?_, ?_, ?_, ?_, ?_⟩
  · rw [hg]
    rcases groupOf dk done (dk it.dt) with _ | _ <;> simp
  · rw [hg]
    rcases hgl : groupOf dk done (dk it.dt) with _ | ⟨it0, g'⟩
    · exact absurd hgl hne
    · have ha := h.anchor
      rw [hgl] at ha
      simpa using ha
  · show (if it.temp_min < v.temp_min then it.temp_min else v.temp_min) = _
    rw [if_lt_eq_min, h.tmin, hg, List.map_append]
    simp only [List.map_cons, List.map_nil]
    rw [pyListMin_append _ _ hmapne]
  · show (if it.temp_max > v.temp_max then it.temp_max else v.temp_max) = _
    rw [if_gt_eq_max, h.tmax, hg, List.map_append]
    simp only [List.map_cons, List.map_nil]
    rw [pyListMax_append _ _ hmapne2]
  · show bumpIcon v.icons it.icon = _
    rw [h.icons, hg, List.map_append, ← iconTable_append]
    rfl
  · show v.pops ++ [it.pop] = _
    rw [h.pops, hg, List.map_append]
    rfl

/-- A fresh entry represents the singleton group of a brand-new date. -/
theorem dayAccRep_new (dk : ℕ → String) (done : List ForecastItem)
    (it : ForecastItem) (hnil : groupOf dk done (dk it.dt) = []) :
    DayAccRep dk (done ++ [it]) (dk it.dt) (newAcc it) := by
  have hg : groupOf dk (done ++ [it]) (dk it.dt) = [it] := by
    rw [groupOf_append_same, hnil, List.nil_append]
  refine ⟨?_, ?_, ?_, ?_, ?_, ?_⟩ <;>
    simp [hg, newAcc, pyListMin, pyListMax, iconTable, bumpIcon]

/-- Inserting a sample updates its date's key in place or appends a new key
at the end. -/
theorem insertItem_keys (dk : ℕ → String) (it : ForecastItem) :
    ∀ acc : List (String × DayAcc),
      (insertItem dk acc it).map Prod.fst =
        if dk it.dt ∈ acc.map Prod.fst then acc.map Prod.fst
        else acc.map Prod.fst ++ [dk it.dt] := by
  intro acc
  induction acc with
  | nil => simp [insertItem]
  | cons p rest ih =>
      obtain ⟨k, v⟩ := p
      by_cases hk : k = dk it.dt
      · subst hk
        simp [insertItem]
      · simp only [insertItem, if_neg hk, List.map_cons, ih]
        by_cases hmem : dk it.dt ∈ rest.map Prod.fst
        · simp [hmem, Ne.symm hk]
        · simp [hmem, Ne.symm hk]

/-- Every entry after an insertion represents its group of the extended
sample list. -/
theorem insertItem_rep (dk : ℕ → String) (done : List ForecastItem)
    (it : ForecastItem) :
    ∀ acc : List (String × DayAcc),
      (acc.map Prod.fst).Nodup →
      (∀ p ∈ acc, DayAccRep dk done p.1 p.2) →
      (dk it.dt ∉ acc.map Prod.fst → groupOf dk done (dk it.dt) = []) →
      ∀ q ∈ insertItem dk acc it, DayAccRep dk (done ++ [it]) q.1 q.2 := by
  intro acc
  induction acc with
  | nil =>
      intro _ _ hlink q hq
      simp only [insertItem] at hq
      rw [List.mem_singleton] at hq
      subst hq
      exact dayAccRep_new dk done it (hlink (by simp))
  | cons p rest ih =>
      intro hnd hrep hlink q hq
      obtain ⟨k, v⟩ := p
      rcases List.nodup_cons.mp hnd with ⟨hknr, hndr⟩
      by_cases hk : k = dk it.dt
      · subst hk
        simp only [insertItem, if_pos rfl] at hq
        rcases List.mem_cons.mp hq with rfl | hqr
        · exact dayAccRep_upd dk done it v
            (hrep (dk it.dt, v) (List.mem_cons_self _ _))
        · have hq1 : q.1 ≠ dk it.dt := by
            intro he
            have hmm : q.1 ∈ rest.map Prod.fst := List.mem_map_of_mem Prod.fst hqr
            rw [he] at hmm
            exact hknr hmm
          exact dayAccRep_mono dk done it q.1 q.2 hq1
            (hrep q (List.mem_cons_of_mem _ hqr))
      · simp only [insertItem, if_neg hk] at hq
        rcases List.mem_cons.mp hq with rfl | hqr
        · exact dayAccRep_mono dk done it (k, v).1 (k, v).2 hk
            (hrep (k, v) (List.mem_cons_self _ _))
        · refine ih hndr (fun p hp => hrep p (List.mem_cons_of_mem _ hp)) ?_ q hqr
          intro hnot
          apply hlink
          simp only [List.map_cons, List.mem_cons]
          rintro (he | hm)
          · exact hk he.symm
          · exact hnot hm

/-- One step of the grouping loop preserves the invariant. -/
theorem buildInv_step (dk : ℕ → String) (done : List ForecastItem)
    (acc : List (String × DayAcc)) (it : ForecastItem)
    (h : BuildInv dk done acc) :
    BuildInv dk (done ++ [it]) (insertItem dk acc it) := by
  obtain ⟨hkeys, hrep⟩ := h
  have hnd : (acc.map Prod.fst).Nodup := by
    rw [hkeys]; exact firstDedup_nodup _
  constructor
  · rw [insertItem_keys, hkeys, List.map_append]
    simp only [List.map_cons, List.map_nil]
    rw [firstDedup_append]
    by_cases hm : dk it.dt ∈ done.map fun it' => dk it'.dt
    · rw [if_pos ((mem_firstDedup _ _).mpr hm), if_pos hm]
    · rw [if_neg (fun hc => hm ((mem_firstDedup _ _).mp hc)), if_neg hm]
  · intro q hq
    refine insertItem_rep dk done it acc hnd hrep ?_ q hq
    intro hnot
    refine groupOf_eq_nil dk done _ ?_
    intro hc
    have : dk it.dt ∈ acc.map Prod.fst := by
      rw [hkeys]; exact (mem_firstDedup _ _).mpr hc
    exact hnot this

/-- The grouping loop establishes the invariant for the whole feed. -/
theorem buildDaily_rep (dk : ℕ → String) (items : List ForecastItem) :
    BuildInv dk items (buildDaily dk items) := by
  have main : ∀ todo done acc, BuildInv dk done acc →
      BuildInv dk (done ++ todo) (todo.foldl (insertItem dk) acc) := by
    intro todo
    induction todo with
    | nil => intro done acc h; simpa using h
    | cons a todo ih =>
        intro done acc h
        have h2 := ih (done ++ [a]) (insertItem dk acc a) (buildInv_step dk done acc a h)
        rw [List.append_assoc] at h2
        simpa using h2
  have h0 : BuildInv dk [] [] := by
    refine ⟨by simp [firstDedup], ?_⟩
    intro p hp
    simp at hp
  have := main items [] [] h0
  simpa [buildDaily] using this

/-- The keys of the pre-sort summaries are the distinct date keys of the
feed in first-occurrence order. -/
theorem presort_keys (dk : ℕ → String) (items : List ForecastItem) :
    ((buildDaily dk items).map (fun p => summarize p.2)).map (fun s => dk s.dt) =
      firstDedup (items.map (fun it => dk it.dt)) := by
  rw [List.map_map]
  have h := buildDaily_rep dk items
  have hcong : ∀ p ∈ buildDaily dk items,
      ((fun s : DailySummary => dk s.dt) ∘ fun p : String × DayAcc => summarize p.2) p
        = Prod.fst p := by
    intro p hp
    have hk := dayAccRep_key dk items p.1 p.2 (h.2 p hp)
    simpa [summarize] using hk
  rw [List.map_congr_left hcong]
  exact h.1

/-- C5 (amended): for the `run_agent_loop.py` aggregator, the output is
sorted ascending by the anchor timestamp thanks to the explicit post-sort,
with exactly one summary per calendar date present in the input (its date
keys are duplicate-free and are exactly the input's date keys).  The
`agents.py` variant lacks the post-sort — see the counterexample. -/
theorem C5_forecast_sorted_one_per_date (dk : ℕ → String)
    (items : List ForecastItem) :
    List.Pairwise (fun a b : DailySummary => a.dt ≤ b.dt)
      (agent_1_5_forecast_processor dk items) ∧
    ((agent_1_5_forecast_processor dk items).map (fun s => dk s.dt)).Nodup ∧
    ∀ d : String,
      d ∈ (agent_1_5_forecast_processor dk items).map (fun s => dk s.dt) ↔
        d ∈ items.map (fun it => dk it.dt) := by
  have hperm : List.Perm (agent_1_5_forecast_processor dk items)
      ((buildDaily dk items).map (fun p => summarize p.2)) :=
    List.mergeSort_perm _ _
  have hkeysperm := hperm.map (fun s => dk s.dt)
  rw [presort_keys dk items] at hkeysperm
  refine ⟨?_, ?_, ?_⟩
  · have htrans : ∀ a b c : DailySummary, decide (a.dt ≤ b.dt) = true →
        decide (b.dt ≤ c.dt) = true → decide (a.dt ≤ c.dt) = true := by
      intro a b c h1 h2
      simp only [decide_eq_true_eq] at h1 h2 ⊢
      omega
    have htotal : ∀ a b : DailySummary,
        (decide (a.dt ≤ b.dt) || decide (b.dt ≤ a.dt)) = true := by
      intro a b
      simp only [Bool.or_eq_true, decide_eq_true_eq]
      omega
    have hs := List.sorted_mergeSort htrans htotal
      ((buildDaily dk items).map (fun p => summarize p.2))
    exact hs.imp (fun h => by simpa using h)
  · exact hkeysperm.nodup_iff.mpr (firstDedup_nodup _)
  · intro d
    rw [hkeysperm.mem_iff, mem_firstDedup]

/-- C5 counterexample: the `agents.py` variant of the aggregator applies no
post-sort, so with a day-2 sample arriving before a day-1 sample its output
sequence is NOT sorted ascending by timestamp. -/
theorem C5_agents_variant_not_sorted :
    ¬ List.Pairwise (fun a b : DailySummary => a.dt ≤ b.dt)
      (agents_forecast_processor dayKeyW itemsCx) := by
  have hl : agents_forecast_processor dayKeyW itemsCx =
      [ { dt := 90000, temp_min := 21, temp_max := 24, icon := "01d", pop := 0 },
        { dt := 100, temp_min := 10, temp_max := 15, icon := "10d", pop := 0 } ] := rfl
  rw [hl]
  intro hp
  have hle := List.rel_of_pairwise_cons hp (List.mem_cons_self _ _)
  exact absurd hle (by decide)

/-- C6: every daily summary the aggregator emits reduces its date's samples
exactly: `temp_min` is the minimum of the group's `temp_min` fields,
`temp_max` the maximum of the `temp_max` fields, `pop` the maximum
precipitation probability; consequently `temp_min ≤ temp_max` for every
summary (given well-formed samples, whose own `temp_min ≤ temp_max`); and
the icon is a most frequent icon code of the day, ties broken by first
insertion (everything before it in first-occurrence order has a strictly
smaller count). -/
theorem C6_daily_reduction (dk : ℕ → String) (items : List ForecastItem)
    (hwf : ∀ it ∈ items, it.temp_min ≤ it.temp_max) :
    ∀ s ∈ agent_1_5_forecast_processor dk items,
      (s.temp_min ∈ (groupOf dk items (dk s.dt)).map ForecastItem.temp_min ∧
        ∀ x ∈ (groupOf dk items (dk s.dt)).map ForecastItem.temp_min,
          s.temp_min ≤ x) ∧
      (s.temp_max ∈ (groupOf dk items (dk s.dt)).map ForecastItem.temp_max ∧
        ∀ x ∈ (groupOf dk items (dk s.dt)).map ForecastItem.temp_max,
          x ≤ s.temp_max) ∧
      (s.pop ∈ (groupOf dk items (dk s.dt)).map ForecastItem.pop ∧
        ∀ x ∈ (groupOf dk items (dk s.dt)).map ForecastItem.pop, x ≤ s.pop) ∧
      s.temp_min ≤ s.temp_max ∧
      (s.icon ∈ (groupOf dk items (dk s.dt)).map ForecastItem.icon ∧
        (∀ x ∈ (groupOf dk items (dk s.dt)).map ForecastItem.icon,
          ((groupOf dk items (dk s.dt)).map ForecastItem.icon).count x ≤
            ((groupOf dk items (dk s.dt)).map ForecastItem.icon).count s.icon) ∧
        ∃ t₁ t₂,
          firstDedup ((groupOf dk items (dk s.dt)).map ForecastItem.icon) =
              t₁ ++ s.icon :: t₂ ∧
            ∀ x ∈ t₁,
              ((groupOf dk items (dk s.dt)).map ForecastItem.icon).count x <
                ((groupOf dk items (dk s.dt)).map ForecastItem.icon).count s.icon) := by
  intro s hs
  have hperm : List.Perm (agent_1_5_forecast_processor dk items)
      ((buildDaily dk items).map (fun p => summarize p.2)) :=
    List.mergeSort_perm _ _
  have hs' : s ∈ (buildDaily dk items).map (fun p => summarize p.2) :=
    hperm.mem_iff.mp hs
  obtain ⟨p, hp, hsp⟩ := List.mem_map.mp hs'
  obtain ⟨hkeys, hrep⟩ := buildDaily_rep dk items
  have rep := hrep p hp
  have hkey : dk p.2.date_ts = p.1 := dayAccRep_key dk items p.1 p.2 rep
  have hsdt : dk s.dt = p.1 := by
    rw [← hsp]
    simpa [summarize] using hkey
  have hgne : groupOf dk items p.1 ≠ [] := rep.nonempty
  have hstmin : s.temp_min =
      pyListMin ((groupOf dk items p.1).map ForecastItem.temp_min) := by
    rw [← hsp]
    simpa [summarize] using rep.tmin
  have hstmax : s.temp_max =
      pyListMax ((groupOf dk items p.1).map ForecastItem.temp_max) := by
    rw [← hsp]
    simpa [summarize] using rep.tmax
  have hspop : s.pop =
      pyListMax ((groupOf dk items p.1).map ForecastItem.pop) := by
    rw [← hsp]
    simpa [summarize] using rep.pops ▸ rfl
  have hsicon : s.icon =
      mostCommonIcon (iconTable ((groupOf dk items p.1).map ForecastItem.icon)) := by
    rw [← hsp]
    simpa [summarize] using rep.icons ▸ rfl
  have hmapne : ∀ f : ForecastItem → ℚ,
      (groupOf dk items p.1).map f ≠ [] := by
    intro f h
    exact hgne (List.map_eq_nil_iff.mp h)
  have hmapnei : (groupOf dk items p.1).map ForecastItem.icon ≠ [] := by
    intro h
    exact hgne (List.map_eq_nil_iff.mp h)
  rw [hsdt]
  refine ⟨⟨?_, ?_⟩, ⟨?_, ?_⟩, ⟨?_, ?_⟩, ?_, ?_⟩
  · rw [hstmin]
    exact pyListMin_mem _ (hmapne _)
  · intro x hx
    rw [hstmin]
    exact pyListMin_le _ x hx
  · rw [hstmax]
    exact pyListMax_mem _ (hmapne _)
  · intro x hx
    rw [hstmax]
    exact le_pyListMax _ x hx
  · rw [hspop]
    exact pyListMax_mem _ (hmapne _)
  · intro x hx
    rw [hspop]
    exact le_pyListMax _ x hx
  · obtain ⟨it0, hit0⟩ := List.exists_mem_of_ne_nil _ hgne
    have h1 : s.temp_min ≤ it0.temp_min := by
      rw [hstmin]
      exact pyListMin_le _ _ (List.mem_map_of_mem _ hit0)
    have h2 : it0.temp_min ≤ it0.temp_max :=
      hwf it0 ((mem_groupOf dk items p.1 it0).mp hit0).1
    have h3 : it0.temp_max ≤ s.temp_max := by
      rw [hstmax]
      exact le_pyListMax _ _ (List.mem_map_of_mem _ hit0)
    exact le_trans h1 (le_trans h2 h3)
  · have hspec := mostCommonIcon_spec
      ((groupOf dk items p.1).map ForecastItem.icon) hmapnei
    rw [← hsicon] at hspec
    exact hspec

/-- Witness for C6 at the concrete three-sample two-date feed `itemsW` (the
well-formedness hypothesis discharged by evaluation). -/
theorem C6_daily_reduction_witness :
    (∀ it ∈ itemsW, it.temp_min ≤ it.temp_max) ∧
    (∀ s ∈ agent_1_5_forecast_processor dayKeyW itemsW,
      (s.temp_min ∈ (groupOf dayKeyW itemsW (dayKeyW s.dt)).map ForecastItem.temp_min ∧
        ∀ x ∈ (groupOf dayKeyW itemsW (dayKeyW s.dt)).map ForecastItem.temp_min,
          s.temp_min ≤ x) ∧
      (s.temp_max ∈ (groupOf dayKeyW itemsW (dayKeyW s.dt)).map ForecastItem.temp_max ∧
        ∀ x ∈ (groupOf dayKeyW itemsW (dayKeyW s.dt)).map ForecastItem.temp_max,
          x ≤ s.temp_max) ∧
      (s.pop ∈ (groupOf dayKeyW itemsW (dayKeyW s.dt)).map ForecastItem.pop ∧
        ∀ x ∈ (groupOf dayKeyW itemsW (dayKeyW s.dt)).map ForecastItem.pop, x ≤ s.pop) ∧
      s.temp_min ≤ s.temp_max ∧
      (s.icon ∈ (groupOf dayKeyW itemsW (dayKeyW s.dt)).map ForecastItem.icon ∧
        (∀ x ∈ (groupOf dayKeyW itemsW (dayKeyW s.dt)).map ForecastItem.icon,
          ((groupOf dayKeyW itemsW (dayKeyW s.dt)).map ForecastItem.icon).count x ≤
            ((groupOf dayKeyW itemsW (dayKeyW s.dt)).map ForecastItem.icon).count s.icon) ∧
        ∃ t₁ t₂,
          firstDedup ((groupOf dayKeyW itemsW (dayKeyW s.dt)).map ForecastItem.icon) =
              t₁ ++ s.icon :: t₂ ∧
            ∀ x ∈ t₁,
              ((groupOf dayKeyW itemsW (dayKeyW s.dt)).map ForecastItem.icon).count x <
                ((groupOf dayKeyW itemsW (dayKeyW s.dt)).map ForecastItem.icon).count s.icon)) := by
  have hwf : ∀ it ∈ itemsW, it.temp_min ≤ it.temp_max := by
    intro it hit
    simp only [itemsW, List.mem_cons, List.not_mem_nil, or_false] at hit
    rcases hit with rfl | rfl | rfl <;> norm_num
  exact ⟨hwf, C6_daily_reduction dayKeyW itemsW hwf⟩
